import Mathlib

/-!
# Verification of the candidate-generation / variant-state core of `src/main.ts`

Shallow embedding of the program's core logic:

* the Candidate Generator (`fetchSkins`, lines 122-136): `baseName` formation and
  the fixed nine-element candidate list;
* the Candidate Resolver (`fetchSkins`, lines 138-186): `verifySkin`, the
  sequential dedup-and-cap loop over candidates, the emergency fallback and the
  final title reassignment;
* the Variant State Controller (`handleGenerate` lines 36-68, `setupViewer`,
  `updateVariantDisplay`, `setupVariantControls`): the mutable UI state
  (`currentSkins`, `currentVariantIndex`, the displayed title/label/link, the
  viewer's loaded texture, the narration log, the active variant button),
  modelled as explicit state passing.

JavaScript strings are modelled as Lean `String`; the regex replacement
`query.trim().replace(/\s+/g, '')` (delete every run of whitespace) is modelled
as trimming both ends and then filtering out every whitespace character, which
computes the same string.  The `async` structure of the source is irrelevant to
the data flow: `verifySkin` performs no network call (it only consults the
seen-set), so resolution is a pure function of the query and is embedded as one.
-/

/-- JS `String.prototype.trim()`: remove whitespace from both ends.
(Modelled directly over the character list because it must be executable.) -/
def trimString (s : String) : String :=
  ⟨((s.data.dropWhile Char.isWhitespace).reverse.dropWhile Char.isWhitespace).reverse⟩

/-- `query.replace(/\s+/g, '')` : delete every whitespace character
(replacing each maximal whitespace run by the empty string deletes exactly
the whitespace characters). -/
def stripWhitespace (s : String) : String :=
  ⟨s.data.filter (fun c => !c.isWhitespace)⟩

/-- Line 122: `const baseName = query.trim().replace(/\s+/g, '')`. -/
def baseNameOf (query : String) : String :=
  stripWhitespace (trimString query)

/-- Lines 126-136: the fixed-order nine-candidate list built from `baseName`. -/
def candidates (baseName : String) : List String :=
  [ baseName,
    baseName ++ "_",
    "The" ++ baseName,
    "Itz" ++ baseName,
    "Real" ++ baseName,
    baseName ++ "123",
    baseName ++ "PVP",
    baseName ++ "Girl",
    baseName ++ "Boy" ]

/-- The Candidate Generator as a function of the raw query (lines 122-136). -/
def generatorCandidates (query : String) : List String :=
  candidates (baseNameOf query)

/-- Lines 98-102: the `SkinData` record. -/
structure SkinData where
  imageUrl : String
  title : String
  detailLink : String
deriving DecidableEq, Repr

/-- Line 146: the texture-host URL pattern `https://minotar.net/skin/${username}`. -/
def skinUrl (username : String) : String :=
  "https://minotar.net/skin/" ++ username

/-- Line 153: the profile-host URL pattern `https://namemc.com/profile/${username}`. -/
def profileUrl (username : String) : String :=
  "https://namemc.com/profile/" ++ username

/-- Lines 142-155: `verifySkin`.  It derives `url = skinUrl username`, returns
`null` when the URL is already in the seen-set, and otherwise returns a record
titled by the current number of accepted records (`validSkins.length + 1`).
It performs no actual image validation. -/
def verifySkin (processedUrls : List String) (numValid : Nat) (username : String) :
    Option SkinData :=
  if skinUrl username ∈ processedUrls then none
  else some
    { imageUrl := skinUrl username,
      title := "Variant " ++ toString (numValid + 1),
      detailLink := profileUrl username }

/-- Lines 159-167: the sequential loop over candidates.  Each iteration first
checks the cap (`if (validSkins.length >= 3) break`), then calls `verifySkin`;
an accepted record is pushed and its URL added to the seen-set. -/
def processCandidates : List String → List SkinData → List String → List SkinData
  | [], validSkins, _ => validSkins
  | candidate :: rest, validSkins, processedUrls =>
    if 3 ≤ validSkins.length then validSkins
    else
      match verifySkin processedUrls validSkins.length candidate with
      | some skin => processCandidates rest (validSkins ++ [skin]) (processedUrls ++ [skin.imageUrl])
      | none => processCandidates rest validSkins processedUrls

/-- Lines 176-180: the emergency-fallback record built from `baseName`. -/
def emergencyFallback (baseName : String) : SkinData :=
  { imageUrl := skinUrl baseName,
    title := "Variant 1",
    detailLink := profileUrl baseName }

/-- Line 184: `validSkins.forEach((s, i) => s.title = ...)`, with `i` starting
at the given offset; reassigns every title by array position. -/
def retitleFrom (i : Nat) : List SkinData → List SkinData
  | [] => []
  | s :: rest => { s with title := "Variant " ++ toString (i + 1) } :: retitleFrom (i + 1) rest

/-- Line 184: reassign `title` on every record by its final array position. -/
def retitle (skins : List SkinData) : List SkinData :=
  retitleFrom 0 skins

/-- Lines 174-186: push the emergency fallback when nothing was accepted, then
reassign all titles sequentially. -/
def finalize (baseName : String) (validSkins : List SkinData) : List SkinData :=
  retitle (if validSkins = [] then [emergencyFallback baseName] else validSkins)

/-- Lines 118-187: `fetchSkins` as a pure function of the query (`verifySkin`
does no network I/O, so the only inputs are the query string). -/
def fetchSkins (query : String) : List SkinData :=
  finalize (baseNameOf query) (processCandidates (candidates (baseNameOf query)) [] [])

/-! ## The Variant State Controller and the UI state -/

/-- The program state the claims are about (lines 27-29 plus the DOM pieces the
controller mutates): the resolved list, the cursor, the displayed title, the
variant label, the detail-link href, the texture currently loaded in the viewer
(`none` = no viewer constructed), the narration log, and which variant button
carries the `active` class. -/
structure UIState where
  currentSkins : List SkinData
  currentVariantIndex : Nat
  skinTitle : String
  variantLabel : String
  downloadHref : String
  viewerSkin : Option String
  statusLog : List String
  activeButton : Option Nat
deriving DecidableEq, Repr

/-- `current()`: the record at the cursor, if any. -/
def currentSkin (s : UIState) : Option SkinData :=
  s.currentSkins.get? s.currentVariantIndex

/-- Lines 190-223: `setupViewer`.  If `currentSkins` is empty it returns early;
otherwise it constructs the viewer with `skin: currentSkins[0].imageUrl`. -/
def setupViewer (s : UIState) : UIState :=
  match s.currentSkins with
  | [] => s
  | skin0 :: _ => { s with viewerSkin := some skin0.imageUrl }

/-- Lines 225-237: `updateVariantDisplay`.  If no record exists at
`currentVariantIndex` (`!currentSkins[currentVariantIndex]`) it returns without
touching anything; otherwise it sets the title, the label, the link href and,
when a viewer exists, loads the record's texture. -/
def updateVariantDisplay (s : UIState) : UIState :=
  match s.currentSkins.get? s.currentVariantIndex with
  | none => s
  | some skin =>
    { s with
      skinTitle := skin.title,
      variantLabel := "Variant " ++ toString (s.currentVariantIndex + 1),
      downloadHref := skin.detailLink,
      viewerSkin :=
        match s.viewerSkin with
        | some _ => some skin.imageUrl
        | none => none }

/-- Lines 239-258: `setupVariantControls` rebuilds the buttons, marking the one
at `currentVariantIndex` active. -/
def setupVariantControls (s : UIState) : UIState :=
  { s with activeButton := some s.currentVariantIndex }

/-- Lines 246-255: a variant button's `onclick`: set `currentVariantIndex`,
re-run `updateVariantDisplay`, and move the `active` class to that button. -/
def selectVariant (s : UIState) (index : Nat) : UIState :=
  { updateVariantDisplay { s with currentVariantIndex := index } with
    activeButton := some index }

/-- Lines 17-24: the canned narration lines. -/
def AI_LOGS : List String :=
  [ "Analyzing semantic request...",
    "Querying neural database...",
    "Synthesizing voxel geometry...",
    "Applying texture mappings...",
    "Optimizing color palette...",
    "Finalizing render..." ]

/-- The narration lines a successful cycle appends after clearing the log.
`runAISimulation` logs its first line synchronously, then `fetchSkins` logs its
search line before the first timer fires; the remaining canned lines follow.
(The source's delays are cosmetic timing only; this fixes the one order the
event loop produces.) -/
def cycleLog (query : String) : List String :=
  "Analyzing semantic request..." ::
    ("Initiating neural search for: " ++ query ++ "...") ::
      [ "Querying neural database...",
        "Synthesizing voxel geometry...",
        "Applying texture mappings...",
        "Optimizing color palette...",
        "Finalizing render..." ]

/-- Lines 53-61: what `handleGenerate` does with the resolved results: on a
non-empty list it installs the new state (cursor 0), rebuilds the viewer,
refreshes the display and the buttons; on an empty list it shows an error. -/
def applyResults (s : UIState) (results : List SkinData) : UIState :=
  if 0 < results.length then
    setupVariantControls (updateVariantDisplay (setupViewer
      { s with currentSkins := results, currentVariantIndex := 0 }))
  else
    { s with statusLog := s.statusLog ++
        [ "ERROR: Failed to generate skins. Try a different prompt.",
          "System Failure: Failed to generate skins. Try a different prompt." ] }

/-- Lines 36-68: `handleGenerate`.  `query = promptInput.value.trim()`; an empty
query returns immediately (before any state is touched).  Otherwise the log is
cleared, the narration and the resolver run, and the results are applied. -/
def handleGenerate (inputValue : String) (s : UIState) : UIState :=
  if trimString inputValue = "" then s
  else
    applyResults { s with statusLog := cycleLog (trimString inputValue) }
      (fetchSkins (trimString inputValue))

/-! ## Helper lemmas (shared) -/

/-- `skinUrl` maps identifiers of different lengths to different URLs. -/
theorem skinUrl_ne_of_length_ne (u v : String) (h : u.length ≠ v.length) :
    skinUrl u ≠ skinUrl v := by
  intro he
  have hl := congrArg String.length he
  rw [skinUrl, skinUrl, String.length_append, String.length_append] at hl
  omega

theorem skinUrl_underscore_ne (b : String) : skinUrl (b ++ "_") ≠ skinUrl b :=
  skinUrl_ne_of_length_ne _ _ (by
    have h : ("_" : String).length = 1 := rfl
    rw [String.length_append, h]; omega)

theorem skinUrl_the_ne (b : String) : skinUrl ("The" ++ b) ≠ skinUrl b :=
  skinUrl_ne_of_length_ne _ _ (by
    have h : ("The" : String).length = 3 := rfl
    rw [String.length_append, h]; omega)

theorem skinUrl_the_ne_underscore (b : String) :
    skinUrl ("The" ++ b) ≠ skinUrl (b ++ "_") :=
  skinUrl_ne_of_length_ne _ _ (by
    have h1 : ("The" : String).length = 3 := rfl
    have h2 : ("_" : String).length = 1 := rfl
    rw [String.length_append, String.length_append, h1, h2]; omega)

/-- Running the dedup-and-cap loop on the nine candidates always accepts exactly
the first three (their URLs differ pairwise in length, so the seen-set never
rejects them), then stops at the cap. -/
theorem processCandidates_run (b : String) :
    processCandidates (candidates b) [] [] =
      [ { imageUrl := skinUrl b, title := "Variant 1", detailLink := profileUrl b },
        { imageUrl := skinUrl (b ++ "_"), title := "Variant 2",
          detailLink := profileUrl (b ++ "_") },
        { imageUrl := skinUrl ("The" ++ b), title := "Variant 3",
          detailLink := profileUrl ("The" ++ b) } ] := by
  have h1 := skinUrl_underscore_ne b
  have h2 := skinUrl_the_ne b
  have h3 := skinUrl_the_ne_underscore b
  have t1 : "Variant " ++ toString (0 + 1 : Nat) = "Variant 1" := rfl
  have t2 : "Variant " ++ toString (1 + 1 : Nat) = "Variant 2" := rfl
  have t3 : "Variant " ++ toString (2 + 1 : Nat) = "Variant 3" := rfl
  simp [candidates, processCandidates, verifySkin, h1, h2, h3, t1, t2, t3]

/-- `fetchSkins` evaluated: for every query it returns exactly the three records
derived from the first three candidates, titled sequentially. -/
theorem fetchSkins_run (q : String) :
    fetchSkins q =
      [ { imageUrl := skinUrl (baseNameOf q), title := "Variant 1",
          detailLink := profileUrl (baseNameOf q) },
        { imageUrl := skinUrl (baseNameOf q ++ "_"), title := "Variant 2",
          detailLink := profileUrl (baseNameOf q ++ "_") },
        { imageUrl := skinUrl ("The" ++ baseNameOf q), title := "Variant 3",
          detailLink := profileUrl ("The" ++ baseNameOf q) } ] := by
  have t1 : "Variant " ++ toString (0 + 1 : Nat) = "Variant 1" := rfl
  have t2 : "Variant " ++ toString (1 + 1 : Nat) = "Variant 2" := rfl
  have t3 : "Variant " ++ toString (2 + 1 : Nat) = "Variant 3" := rfl
  rw [fetchSkins, processCandidates_run]
  simp [finalize, retitle, retitleFrom, t1, t2, t3]

/-- Reassigned titles depend only on the final array position: whatever title a
record carried before, after the retitle pass the record at position `i`
(counting from offset `k`) is titled `"Variant " ++ toString (k + i + 1)`. -/
theorem retitleFrom_get? (l : List SkinData) :
    ∀ (k i : Nat) (r : SkinData),
      (retitleFrom k l).get? i = some r → r.title = "Variant " ++ toString (k + i + 1) := by
  induction l with
  | nil => intro k i r h; simp [retitleFrom] at h
  | cons s rest ih =>
    intro k i r h
    cases i with
    | zero =>
      simp only [retitleFrom, List.get?] at h
      injection h with h
      rw [← h]
    | succ n =>
      simp only [retitleFrom, List.get?] at h
      have hn := ih (k + 1) n r h
      rw [hn]
      have : k + 1 + n + 1 = k + (n + 1) + 1 := by omega
      rw [this]

/-! ## Claim theorems -/

/-- C1: for every non-empty query the Candidate Generator forms `baseName` by
stripping the whitespace out of the query and emits exactly the nine candidates
`[baseName, baseName_, ThebaseName, ItzbaseName, RealbaseName, baseName123,
baseNamePVP, baseNameGirl, baseNameBoy]` in that exact order; the output is a
deterministic function of the query (the generator is a pure function: equal
queries give the identical sequence); query "Steve" yields the expected list. -/
theorem candidate_generator_fixed_order (q : String) (hq : q ≠ "") :
    generatorCandidates q =
      [ baseNameOf q, baseNameOf q ++ "_", "The" ++ baseNameOf q,
        "Itz" ++ baseNameOf q, "Real" ++ baseNameOf q, baseNameOf q ++ "123",
        baseNameOf q ++ "PVP", baseNameOf q ++ "Girl", baseNameOf q ++ "Boy" ] ∧
    (∀ r : String, r = q → generatorCandidates r = generatorCandidates q) ∧
    generatorCandidates "Steve" =
      [ "Steve", "Steve_", "TheSteve", "ItzSteve", "RealSteve",
        "Steve123", "StevePVP", "SteveGirl", "SteveBoy" ] := by
  refine ⟨rfl, fun r hr => by rw [hr], ?_⟩
  rfl

/-- C1 witness at the concrete query "Steve". -/
theorem candidate_generator_fixed_order_witness :
    generatorCandidates "Steve" =
      [ "Steve", "Steve_", "TheSteve", "ItzSteve", "RealSteve",
        "Steve123", "StevePVP", "SteveGirl", "SteveBoy" ] :=
  (candidate_generator_fixed_order "Steve" (by decide)).2.2

/-- C2: for every non-empty query, the resolver's result has length between 1
and 3 and its imageUrl values are pairwise distinct. -/
theorem fetchSkins_length_and_distinct (q : String) (hq : q ≠ "") :
    1 ≤ (fetchSkins q).length ∧ (fetchSkins q).length ≤ 3 ∧
    (fetchSkins q).Pairwise (fun a b => a.imageUrl ≠ b.imageUrl) := by
  have h1 := (skinUrl_underscore_ne (baseNameOf q)).symm
  have h2 := (skinUrl_the_ne (baseNameOf q)).symm
  have h3 := (skinUrl_the_ne_underscore (baseNameOf q)).symm
  rw [fetchSkins_run]
  refine ⟨by simp, by simp, ?_⟩
  simp [List.pairwise_cons, h1, h2, h3]

/-- C2 witness at the concrete query "Steve". -/
theorem fetchSkins_length_and_distinct_witness :
    1 ≤ (fetchSkins "Steve").length ∧ (fetchSkins "Steve").length ≤ 3 ∧
    (fetchSkins "Steve").Pairwise (fun a b => a.imageUrl ≠ b.imageUrl) :=
  fetchSkins_length_and_distinct "Steve" (by decide)

/-- C3: the record at position i of the resolver's result is titled
`"Variant " ++ toString (i+1)`: titles are "Variant 1".."Variant k" in array
order with no gaps, assigned by final array position (the final retitle pass
overwrites construction-time titles), however many candidates were rejected. -/
theorem fetchSkins_titles_sequential (q : String) (i : Nat) (r : SkinData)
    (h : (fetchSkins q).get? i = some r) :
    r.title = "Variant " ++ toString (i + 1) := by
  rw [fetchSkins_run] at h
  rcases i with _ | _ | _ | n
  · injection h with h; subst h; rfl
  · injection h with h; subst h; rfl
  · injection h with h; subst h; rfl
  · simp at h

/-- C3 witness: the record at position 1 for query "Steve" is "Variant 2". -/
theorem fetchSkins_titles_sequential_witness :
    ({ imageUrl := skinUrl ("Steve" ++ "_"), title := "Variant 2",
       detailLink := profileUrl ("Steve" ++ "_") } : SkinData).title =
      "Variant " ++ toString (1 + 1) :=
  fetchSkins_titles_sequential "Steve" 1 _ (by rw [fetchSkins_run]; rfl)

/-- C4: the resolver is a total function of the query (the embedding returns a
plain list, never an error), its result is never empty, and the zero-accepted
path of the finalization (lines 174-186) returns exactly one emergency-fallback
record titled "Variant 1" whose URLs are built from the base name. -/
theorem fetchSkins_never_empty (q : String) (hq : q ≠ "") :
    fetchSkins q ≠ [] ∧
    1 ≤ (fetchSkins q).length ∧
    ∀ b : String, finalize b [] =
      [ { imageUrl := skinUrl b, title := "Variant 1", detailLink := profileUrl b } ] := by
  refine ⟨?_, ?_, ?_⟩
  · rw [fetchSkins_run]; simp
  · rw [fetchSkins_run]; simp
  · intro b
    have t1 : "Variant " ++ toString (0 + 1 : Nat) = "Variant 1" := rfl
    simp [finalize, retitle, retitleFrom, emergencyFallback, t1]

/-- C4 witness at the concrete query "Steve". -/
theorem fetchSkins_never_empty_witness :
    fetchSkins "Steve" ≠ [] ∧
    1 ≤ (fetchSkins "Steve").length ∧
    ∀ b : String, finalize b [] =
      [ { imageUrl := skinUrl b, title := "Variant 1", detailLink := profileUrl b } ] :=
  fetchSkins_never_empty "Steve" (by decide)

/-- C5: the resolver always returns exactly 3 records, built from the first
three generator candidates; `verifySkin` accepts every candidate whose derived
URL is not in the seen-set (no actual image validation happens), the first
three candidates always derive pairwise-distinct URLs, and the zero-records
emergency-fallback branch is unreachable (the accepted list is never empty). -/
theorem fetchSkins_always_three (q : String) (hq : q ≠ "") :
    (fetchSkins q).length = 3 ∧
    fetchSkins q =
      [ { imageUrl := skinUrl (baseNameOf q), title := "Variant 1",
          detailLink := profileUrl (baseNameOf q) },
        { imageUrl := skinUrl (baseNameOf q ++ "_"), title := "Variant 2",
          detailLink := profileUrl (baseNameOf q ++ "_") },
        { imageUrl := skinUrl ("The" ++ baseNameOf q), title := "Variant 3",
          detailLink := profileUrl ("The" ++ baseNameOf q) } ] ∧
    (∀ (urls : List String) (n : Nat) (u : String), skinUrl u ∉ urls →
      verifySkin urls n u =
        some { imageUrl := skinUrl u, title := "Variant " ++ toString (n + 1),
               detailLink := profileUrl u }) ∧
    (skinUrl (baseNameOf q) ≠ skinUrl (baseNameOf q ++ "_") ∧
      skinUrl (baseNameOf q) ≠ skinUrl ("The" ++ baseNameOf q) ∧
      skinUrl (baseNameOf q ++ "_") ≠ skinUrl ("The" ++ baseNameOf q)) ∧
    processCandidates (candidates (baseNameOf q)) [] [] ≠ [] := by
  refine ⟨?_, fetchSkins_run q, ?_, ?_, ?_⟩
  · rw [fetchSkins_run]; rfl
  · intro urls n u hu
    simp [verifySkin, hu]
  · exact ⟨(skinUrl_underscore_ne _).symm, (skinUrl_the_ne _).symm,
      (skinUrl_the_ne_underscore _).symm⟩
  · rw [processCandidates_run]; simp

/-- C5 witness at the concrete query "Steve". -/
theorem fetchSkins_always_three_witness : (fetchSkins "Steve").length = 3 :=
  (fetchSkins_always_three "Steve" (by decide)).1

/-- A concrete idle state, used to instantiate the controller theorems. -/
def sampleIdleState : UIState :=
  { currentSkins := [],
    currentVariantIndex := 0,
    skinTitle := "",
    variantLabel := "",
    downloadHref := "",
    viewerSkin := none,
    statusLog := [],
    activeButton := none }

/-- A concrete state holding two resolved records, cursor at 0. -/
def sampleTwoSkinsState : UIState :=
  { currentSkins := [emergencyFallback "Alpha", emergencyFallback "Beta"],
    currentVariantIndex := 0,
    skinTitle := "Variant 1",
    variantLabel := "Variant 1",
    downloadHref := profileUrl "Alpha",
    viewerSkin := some (skinUrl "Alpha"),
    statusLog := [],
    activeButton := some 0 }

/-- C6: installing a non-empty resolved list (lines 53-58) sets the cursor to
0, so `current()` immediately afterwards is the first record; the displayed
title and the texture loaded into the viewer come from that first record.
The same holds at the end of a successful generation cycle (`handleGenerate`
with input that trims non-empty). -/
theorem initialize_current_is_first (s : UIState) (results : List SkinData)
    (r0 : SkinData) (rest : List SkinData) (h : results = r0 :: rest) :
    (applyResults s results).currentVariantIndex = 0 ∧
    currentSkin (applyResults s results) = some r0 ∧
    (applyResults s results).currentSkins = results ∧
    (applyResults s results).skinTitle = r0.title ∧
    (applyResults s results).viewerSkin = some r0.imageUrl ∧
    ∀ inputValue : String, trimString inputValue ≠ "" →
      (handleGenerate inputValue sampleIdleState).currentVariantIndex = 0 ∧
      currentSkin (handleGenerate inputValue sampleIdleState) =
        (fetchSkins (trimString inputValue)).get? 0 := by
  subst h
  refine ⟨?_, ?_, ?_, ?_, ?_, ?_⟩
  · simp [applyResults, setupViewer, setupVariantControls, updateVariantDisplay, currentSkin]
  · simp [applyResults, setupViewer, setupVariantControls, updateVariantDisplay, currentSkin]
  · simp [applyResults, setupViewer, setupVariantControls, updateVariantDisplay, currentSkin]
  · simp [applyResults, setupViewer, setupVariantControls, updateVariantDisplay, currentSkin]
  · simp [applyResults, setupViewer, setupVariantControls, updateVariantDisplay, currentSkin]
  · intro inputValue hin
    rw [handleGenerate, if_neg hin, fetchSkins_run]
    constructor
    · simp [applyResults, setupViewer, setupVariantControls, updateVariantDisplay, currentSkin]
    · simp [applyResults, setupViewer, setupVariantControls, updateVariantDisplay, currentSkin]

/-- C6 witness: initializing the idle state with one concrete record. -/
theorem initialize_current_is_first_witness :
    (applyResults sampleIdleState [emergencyFallback "Alpha"]).currentVariantIndex = 0 ∧
    currentSkin (applyResults sampleIdleState [emergencyFallback "Alpha"]) =
      some (emergencyFallback "Alpha") ∧
    (applyResults sampleIdleState [emergencyFallback "Alpha"]).currentSkins =
      [emergencyFallback "Alpha"] ∧
    (applyResults sampleIdleState [emergencyFallback "Alpha"]).skinTitle =
      (emergencyFallback "Alpha").title ∧
    (applyResults sampleIdleState [emergencyFallback "Alpha"]).viewerSkin =
      some (emergencyFallback "Alpha").imageUrl ∧
    ∀ inputValue : String, trimString inputValue ≠ "" →
      (handleGenerate inputValue sampleIdleState).currentVariantIndex = 0 ∧
      currentSkin (handleGenerate inputValue sampleIdleState) =
        (fetchSkins (trimString inputValue)).get? 0 :=
  initialize_current_is_first sampleIdleState [emergencyFallback "Alpha"]
    (emergencyFallback "Alpha") [] rfl

/-- C7: selecting a valid index i sets the cursor to i, so `current()` returns
items[i]; the displayed title, variant label and detail link then come from
items[i], and the button at i is the active one. -/
theorem select_then_current (s : UIState) (i : Nat) (r : SkinData)
    (h : s.currentSkins.get? i = some r) :
    (selectVariant s i).currentVariantIndex = i ∧
    currentSkin (selectVariant s i) = some r ∧
    (selectVariant s i).skinTitle = r.title ∧
    (selectVariant s i).variantLabel = "Variant " ++ toString (i + 1) ∧
    (selectVariant s i).downloadHref = r.detailLink ∧
    (selectVariant s i).activeButton = some i := by
  have h' : s.currentSkins[i]? = some r := by
    rw [← List.get?_eq_getElem?]; exact h
  simp [selectVariant, updateVariantDisplay, currentSkin, h']

/-- C7 witness: selecting index 1 in the concrete two-record state. -/
theorem select_then_current_witness :
    (selectVariant sampleTwoSkinsState 1).currentVariantIndex = 1 ∧
    currentSkin (selectVariant sampleTwoSkinsState 1) = some (emergencyFallback "Beta") ∧
    (selectVariant sampleTwoSkinsState 1).skinTitle = (emergencyFallback "Beta").title ∧
    (selectVariant sampleTwoSkinsState 1).variantLabel = "Variant " ++ toString (1 + 1) ∧
    (selectVariant sampleTwoSkinsState 1).downloadHref = (emergencyFallback "Beta").detailLink ∧
    (selectVariant sampleTwoSkinsState 1).activeButton = some 1 :=
  select_then_current sampleTwoSkinsState 1 (emergencyFallback "Beta") rfl

/-- C8: an input that is empty after trimming makes `handleGenerate` return
before touching anything: the narration log is not cleared and the whole
program state (result list, cursor, viewer, UI fields) is unchanged. -/
theorem empty_input_noop (inputValue : String) (s : UIState)
    (h : trimString inputValue = "") :
    handleGenerate inputValue s = s := by
  rw [handleGenerate, if_pos h]

/-- C8 witness: a whitespace-only input leaves the concrete state unchanged. -/
theorem empty_input_noop_witness :
    handleGenerate "   " sampleTwoSkinsState = sampleTwoSkinsState :=
  empty_input_noop "   " sampleTwoSkinsState (by decide)

/-- C9: every record the resolver returns derives its imageUrl and detailLink
from one and the same identifier (the texture-host pattern and the
profile-host pattern stay in lockstep), and the emergency-fallback record does
too (its identifier is the base name). -/
theorem imageUrl_detailLink_lockstep (q : String) (r : SkinData)
    (h : r ∈ fetchSkins q) :
    (∃ u : String, r.imageUrl = skinUrl u ∧ r.detailLink = profileUrl u) ∧
    ∀ b : String, ∃ u : String,
      (emergencyFallback b).imageUrl = skinUrl u ∧
      (emergencyFallback b).detailLink = profileUrl u := by
  constructor
  · rw [fetchSkins_run] at h
    simp only [List.mem_cons, List.not_mem_nil, or_false] at h
    rcases h with rfl | rfl | rfl
    · exact ⟨baseNameOf q, rfl, rfl⟩
    · exact ⟨baseNameOf q ++ "_", rfl, rfl⟩
    · exact ⟨"The" ++ baseNameOf q, rfl, rfl⟩
  · intro b
    exact ⟨b, rfl, rfl⟩

/-- C9 witness: the first record for query "Steve". -/
theorem imageUrl_detailLink_lockstep_witness :
    (∃ u : String,
      ({ imageUrl := skinUrl "Steve", title := "Variant 1",
         detailLink := profileUrl "Steve" } : SkinData).imageUrl = skinUrl u ∧
      ({ imageUrl := skinUrl "Steve", title := "Variant 1",
         detailLink := profileUrl "Steve" } : SkinData).detailLink = profileUrl u) ∧
    ∀ b : String, ∃ u : String,
      (emergencyFallback b).imageUrl = skinUrl u ∧
      (emergencyFallback b).detailLink = profileUrl u :=
  imageUrl_detailLink_lockstep "Steve" _ (by rw [fetchSkins_run]; exact List.mem_cons_self _ _)

/-- C10: when no record exists at the cursor, `updateVariantDisplay` returns
early and the whole state (title, label, link, viewer texture) is unchanged. -/
theorem updateVariantDisplay_out_of_range (s : UIState)
    (h : s.currentSkins.get? s.currentVariantIndex = none) :
    updateVariantDisplay s = s := by
  unfold updateVariantDisplay
  rw [h]

/-- C10 witness: the idle state has no record at its cursor. -/
theorem updateVariantDisplay_out_of_range_witness :
    updateVariantDisplay sampleIdleState = sampleIdleState :=
  updateVariantDisplay_out_of_range sampleIdleState rfl
